import Mathlib

/-!
Shallow embedding of the client-side GitHub repository searcher
(src/Untitled-3.js).

Pure functions of the source (`buildSearchQuery`, `getCacheKey`, the
base64 encoding performed by the browser primitive `btoa`) are
translated directly.  The stateful orchestrator
(`GitHubRepositorySearcher`) is modelled as an explicit state record
`AppState`; each synchronous run-to-completion segment of the
JavaScript event loop is one step of a small-step semantics:
the event handlers (`handleFormSubmit`, `handleLanguageChange`,
`handleSearchTermInput`, `retrySearch`, `showRandomRepository`) run
synchronously up to the `await fetch` suspension point, which is
modelled by appending a pending request; the continuation after the
suspension (cache write, `handleSearchSuccess`, the `catch` branch and
the `finally` block) runs when a later `settle` event fires for that
request.  Calling `abort()` on the `AbortController` of a pending
request marks it aborted; an aborted request settles with the
`AbortError` branch of the `catch`.  `btoa` throws on any character
above U+00FF; the throw is modelled by `Option.none` (the surrounding
`async` function then rejects before reaching its `try` block, so the
state produced so far is returned unchanged).  `Math.random`-driven
indices and network responses are inputs of the respective events.
-/

namespace GhSearch

structure RepoItem where
  name : String
  ownerLogin : String
  description : Option String
  htmlUrl : String
  stargazersCount : Nat
  forksCount : Nat
  openIssuesCount : Nat
  language : Option String
  licenseName : Option String
  updatedAt : String
deriving DecidableEq

def defaultItem : RepoItem := ⟨"", "", none, "", 0, 0, 0, none, none, ""⟩

/-- The JSON payload returned by the provider: `{ total_count, items }`. -/
structure SearchData where
  total_count : Nat
  items : List RepoItem
deriving DecidableEq

structure CacheEntry where
  data : SearchData
  timestamp : Nat
deriving DecidableEq

/-- One in-flight network request: created at the `fetch` call,
removed when it settles; `aborted` is set by `AbortController.abort()`. -/
structure PendingReq where
  id : Nat
  query : String
  cacheKey : String
  aborted : Bool
deriving DecidableEq

/-- The CSS class passed to `showStatus` (`''`, `empty`, `loading`,
`success`, `error`). -/
inductive StatusType where
  | blank
  | empty
  | loading
  | success
  | error
deriving DecidableEq

inductive NetOutcome where
  | success (d : SearchData)
  | httpError (status : Nat) (statusText : String)
  | netError (msg : String)
deriving DecidableEq

def API_URL : String := "https://api.github.com/search/repositories"

def ITEMS_PER_PAGE : Nat := 15

def DEBOUNCE_DELAY : Nat := 800

def CACHE_DURATION : Nat := 5 * 60 * 1000

def promptSubmitMsg : String :=
  "Por favor selecciona un lenguaje o ingresa un término de búsqueda"

def promptMsg : String :=
  "Selecciona un lenguaje o ingresa un término para comenzar"

def noResultsMsg : String :=
  "😕 No se encontraron repositorios que coincidan con tu búsqueda"

def loadingMsg : String :=
  "<span class=\"spinner\"></span>Buscando repositorios increíbles..."

def successMsg (totalCount : Nat) : String :=
  "✅ Se encontraron " ++ toString totalCount ++ " repositorios"

def errorStatusMsg (m : String) : String :=
  "❌ Error: " ++ m ++ "<br>\n                <button onclick=\"app.retrySearch()\" class=\"btn btn-secondary\" style=\"margin-top: 0.5rem; padding: 0.5rem 1rem; font-size: 0.9rem;\">\n                    🔄 Reintentar\n                </button>"

/-- JavaScript `String.prototype.trim`: strip leading and trailing
whitespace (structurally recursive so that it evaluates in proofs). -/
def jsTrim (s : String) : String :=
  String.mk (((s.data.dropWhile Char.isWhitespace).reverse.dropWhile
    Char.isWhitespace).reverse)

/-- `buildSearchQuery(language, searchTerm)` from the source (lines
199-214); JavaScript string truthiness is emptiness of the string. -/
def buildSearchQuery (language searchTerm : String) : String :=
  let query :=
    if searchTerm ≠ "" ∧ language ≠ "" then
      searchTerm ++ " language:" ++ language
    else if language ≠ "" then
      "language:" ++ language
    else
      searchTerm
  query ++ " stars:>10"

def base64Alphabet : List Char :=
  "ABCDEFGHIJKLMNOPQRSTUVWXYZabcdefghijklmnopqrstuvwxyz0123456789+/".data

def sextetToChar (n : Nat) : Char := base64Alphabet.getD n 'A'

def charToSextet (c : Char) : Nat := base64Alphabet.indexOf c

/-- Standard base64 of a byte sequence, as performed by `btoa`. -/
def base64Encode : List Nat → List Char
  | [] => []
  | [b1] =>
    [sextetToChar (b1 / 4), sextetToChar (b1 % 4 * 16), '=', '=']
  | [b1, b2] =>
    [sextetToChar (b1 / 4), sextetToChar (b1 % 4 * 16 + b2 / 16),
     sextetToChar (b2 % 16 * 4), '=']
  | b1 :: b2 :: b3 :: rest =>
    sextetToChar (b1 / 4) :: sextetToChar (b1 % 4 * 16 + b2 / 16) ::
    sextetToChar (b2 % 16 * 4 + b3 / 64) :: sextetToChar (b3 % 64) ::
    base64Encode rest

/-- Inverse of `base64Encode`, used to prove the encoding injective. -/
def base64Decode : List Char → List Nat
  | c1 :: c2 :: c3 :: c4 :: rest =>
    if c3 = '=' then
      [charToSextet c1 * 4 + charToSextet c2 / 16]
    else if c4 = '=' then
      [charToSextet c1 * 4 + charToSextet c2 / 16,
       charToSextet c2 % 16 * 16 + charToSextet c3 / 4]
    else
      (charToSextet c1 * 4 + charToSextet c2 / 16) ::
      (charToSextet c2 % 16 * 16 + charToSextet c3 / 4) ::
      (charToSextet c3 % 4 * 64 + charToSextet c4) :: base64Decode rest
  | _ => []

def isLatin1 (s : String) : Bool := s.data.all (fun c => c.toNat ≤ 255)

/-- The browser primitive `btoa`: base64 of the code points of a
string whose characters are all ≤ U+00FF; throws (here: `none`) on
any character above U+00FF. -/
def btoa (s : String) : Option String :=
  if isLatin1 s then
    some (String.mk (base64Encode (s.data.map Char.toNat)))
  else
    none

/-- `getCacheKey(query)` from the source (lines 419-421):
`github_search_${btoa(query)}`; `none` models the `btoa` throw. -/
def getCacheKey (query : String) : Option String :=
  (btoa query).map (fun b => "github_search_" ++ b)

/-- The full mutable state of the `GitHubRepositorySearcher` instance
together with the modelled environment (pending fetches, clock,
counter of issued network calls). -/
structure AppState where
  now : Nat
  isLoading : Bool
  abortController : Option Nat
  cache : List (String × CacheEntry)
  currentResults : List RepoItem
  statusType : StatusType
  statusMsg : String
  resultsRendered : List RepoItem
  refreshBtnHidden : Bool
  debouncePending : Option (String × String)
  pending : List PendingReq
  nextId : Nat
  fetchCount : Nat
deriving DecidableEq

def initialState : AppState :=
  { now := 0
    isLoading := false
    abortController := none
    cache := []
    currentResults := []
    statusType := .blank
    statusMsg := ""
    resultsRendered := []
    refreshBtnHidden := true
    debouncePending := none
    pending := []
    nextId := 0
    fetchCount := 0 }

/-- `Map.set` (insertion order only matters for iteration, which the
source never does, so shadowing by consing preserves `get`). -/
def cacheSet (c : List (String × CacheEntry)) (k : String) (v : CacheEntry) :
    List (String × CacheEntry) :=
  (k, v) :: c

def cacheGet (c : List (String × CacheEntry)) (k : String) : Option CacheEntry :=
  (c.find? (fun p => p.1 == k)).map (fun p => p.2)

def markAborted (ps : List PendingReq) (id : Nat) : List PendingReq :=
  ps.map (fun r => if r.id = id then { r with aborted := true } else r)

/-- Lines 119-123 of `searchRepositories`: if a fetch is in flight,
abort the tracked controller. -/
def abortCurrent (s : AppState) : AppState :=
  if s.isLoading then
    match s.abortController with
    | some id => { s with pending := markAborted s.pending id }
    | none => s
  else s

/-- Lines 137-152: mark loading, install a fresh `AbortController`,
show the loading banner, clear rendered results, hide the random
button, and issue the `fetch` (modelled as a new pending request). -/
def startFetch (s : AppState) (query cacheKey : String) : AppState :=
  { s with isLoading := true
           abortController := some s.nextId
           statusType := .loading
           statusMsg := loadingMsg
           resultsRendered := []
           refreshBtnHidden := true
           pending := s.pending ++ [⟨s.nextId, query, cacheKey, false⟩]
           nextId := s.nextId + 1
           fetchCount := s.fetchCount + 1 }

/-- `handleSearchSuccess(data)` (lines 187-196). -/
def handleSearchSuccess (s : AppState) (d : SearchData) : AppState :=
  if 0 < d.items.length then
    { s with currentResults := d.items
             resultsRendered := d.items
             statusType := .success
             statusMsg := successMsg d.total_count
             refreshBtnHidden := false }
  else
    { s with statusType := .empty, statusMsg := noResultsMsg }

/-- The synchronous prefix of `searchRepositories(language, searchTerm)`
(lines 118-145), up to the `await fetch`. -/
def searchRepositories (s0 : AppState) (language searchTerm : String) : AppState :=
  let s := abortCurrent s0
  let query := buildSearchQuery language searchTerm
  match getCacheKey query with
  | none => s
  | some cacheKey =>
    match cacheGet s.cache cacheKey with
    | some entry =>
      if s.now - entry.timestamp < CACHE_DURATION then
        handleSearchSuccess s entry.data
      else
        startFetch s query cacheKey
    | none => startFetch s query cacheKey

/-- The continuation of `searchRepositories` after the `fetch`
settles (lines 147-184): the success path writes the cache and calls
`handleSearchSuccess`; `AbortError` returns silently; other errors
show the error banner; the `finally` block always clears `isLoading`
and the controller. -/
def settleRequest (s : AppState) (id : Nat) (o : NetOutcome) : AppState :=
  match s.pending.find? (fun r => r.id == id) with
  | none => s
  | some r =>
    let s1 := { s with pending := s.pending.filter (fun q => q.id != id) }
    if r.aborted then
      { s1 with isLoading := false, abortController := none }
    else
      match o with
      | .success d =>
        let s2 := { s1 with cache := cacheSet s1.cache r.cacheKey ⟨d, s1.now⟩ }
        let s3 := handleSearchSuccess s2 d
        { s3 with isLoading := false, abortController := none }
      | .httpError status statusText =>
        { s1 with statusType := .error
                  statusMsg := errorStatusMsg
                    ("Error " ++ toString status ++ ": " ++ statusText)
                  isLoading := false
                  abortController := none }
      | .netError m =>
        { s1 with statusType := .error
                  statusMsg := errorStatusMsg m
                  isLoading := false
                  abortController := none }

/-- `handleFormSubmit` (lines 51-63); the two arguments are the
current values of the language selector and the term input. -/
def handleFormSubmit (s : AppState) (languageField termField : String) : AppState :=
  let language := languageField
  let searchTerm := (jsTrim termField)
  if language = "" ∧ searchTerm = "" then
    { s with statusType := .empty, statusMsg := promptSubmitMsg }
  else
    searchRepositories s language searchTerm

/-- `handleLanguageChange` (lines 66-78); `saveToLocalStorage` touches
no core state. -/
def handleLanguageChange (s : AppState) (languageField termField : String) : AppState :=
  let language := languageField
  let searchTerm := (jsTrim termField)
  if language ≠ "" then
    searchRepositories s language searchTerm
  else if searchTerm = "" then
    { s with statusType := .empty
             statusMsg := promptMsg
             resultsRendered := []
             refreshBtnHidden := true }
  else s

/-- `handleSearchTermInput` (lines 81-95): `clearTimeout` empties the
single debounce slot; the first branch arms it with the captured
criteria; the second resets the display; otherwise nothing happens. -/
def handleSearchTermInput (s : AppState) (languageField termValue : String) : AppState :=
  let s1 := { s with debouncePending := none }
  let language := languageField
  let searchTerm := (jsTrim termValue)
  if 3 ≤ searchTerm.length ∨ language ≠ "" then
    { s1 with debouncePending := some (language, searchTerm) }
  else if searchTerm = "" ∧ language = "" then
    { s1 with statusType := .empty
              statusMsg := promptMsg
              resultsRendered := []
              refreshBtnHidden := true }
  else s1

/-- `retrySearch` (lines 373-377): re-reads the current form fields. -/
def retrySearch (s : AppState) (languageField termField : String) : AppState :=
  searchRepositories s languageField (jsTrim termField)

/-- `showRandomRepository` (lines 351-363); `randomIndex` stands for
`Math.floor(Math.random() * this.currentResults.length)`, which is
always < `currentResults.length` when the list is non-empty. -/
def showRandomRepository (s : AppState) (randomIndex : Nat) : AppState :=
  if 0 < s.currentResults.length then
    { s with resultsRendered := [s.currentResults.getD randomIndex defaultItem] }
  else s

/-- `destroy` (lines 530-546): clear the debounce slot, abort any
in-flight request, clear the cache. -/
def destroy (s : AppState) : AppState :=
  let s1 := { s with debouncePending := none }
  let s2 :=
    match s1.abortController with
    | some id => { s1 with pending := markAborted s1.pending id }
    | none => s1
  { s2 with cache := [] }

/-- One run-to-completion segment of the JavaScript event loop. -/
inductive Event where
  | submit (languageField termField : String)
  | languageChange (languageField termField : String)
  | textInput (languageField termValue : String)
  | debounceFire
  | retry (languageField termField : String)
  | randomPick (randomIndex : Nat)
  | settle (id : Nat) (o : NetOutcome)
  | tick (dt : Nat)
  | teardown
deriving DecidableEq

def step (s : AppState) : Event → AppState
  | .submit l t => handleFormSubmit s l t
  | .languageChange l t => handleLanguageChange s l t
  | .textInput l t => handleSearchTermInput s l t
  | .debounceFire =>
    match s.debouncePending with
    | some lt => searchRepositories { s with debouncePending := none } lt.1 lt.2
    | none => s
  | .retry l t => retrySearch s l t
  | .randomPick i => showRandomRepository s i
  | .settle id o => settleRequest s id o
  | .tick dt => { s with now := s.now + dt }
  | .teardown => destroy s

def run (s : AppState) : List Event → AppState
  | [] => s
  | e :: es => run (step s e) es

def sampleItem : RepoItem :=
  ⟨"lean4", "leanprover", some "The Lean theorem prover", "https://example.org/a",
   100, 10, 1, some "C++", some "Apache-2.0", "2024-01-01"⟩

def sampleItem2 : RepoItem :=
  ⟨"mathlib4", "leanprover-community", none, "https://example.org/b",
   90, 20, 2, some "Lean 4", none, "2024-02-01"⟩

/-- A scheduler order the browser event loop actually produces:
trigger "aaa"; trigger "bbb" (aborts the first); the aborted first
request settles (its `finally` clears `isLoading` and the controller
while "bbb" is still in flight); trigger "ccc" (sees `isLoading`
false, so does not abort "bbb"). -/
def c1State : AppState :=
  run initialState
    [Event.submit "" "aaa", Event.submit "" "bbb",
     Event.settle 0 (NetOutcome.success ⟨0, []⟩), Event.submit "" "ccc"]

/-- State with all pending requests of id 0 aborted, for the C1 witness. -/
def c1uState : AppState := { initialState with pending := [⟨0, "q", "k", true⟩] }

/-- State with one pending un-aborted request, for the C2 witness. -/
def c2wState : AppState := { initialState with pending := [⟨0, "q", "k", false⟩] }

/-- Same event order as `c1State`, exhibiting two live requests. -/
def c3State : AppState :=
  run initialState
    [Event.submit "" "aaa", Event.submit "" "bbb",
     Event.settle 0 (NetOutcome.success ⟨0, []⟩), Event.submit "" "ccc"]

/-- A Success state holding two rendered results. -/
def c5State : AppState := handleSearchSuccess initialState ⟨2, [sampleItem, sampleItem2]⟩

/-- Error state reached by a 503 response to the query for term "abc". -/
def c6ErrState : AppState :=
  settleRequest (handleFormSubmit initialState "" "abc") 0
    (NetOutcome.httpError 503 "Service Unavailable")

/-- A Success state holding one rendered result. -/
def c7State : AppState := handleSearchSuccess initialState ⟨1, [sampleItem]⟩

/-- Frame condition on the retained result set: a step either leaves
`currentResults` untouched, or it has just installed a non-empty item
list of a successful response (Success status shown, the same list
rendered). -/
def ResultFrame (s s' : AppState) : Prop :=
  s'.currentResults = s.currentResults ∨
    (s'.currentResults ≠ [] ∧ s'.statusType = StatusType.success ∧
     s'.resultsRendered = s'.currentResults)

theorem charToSextet_sextetToChar : ∀ n, n < 64 → charToSextet (sextetToChar n) = n := by
  decide

theorem sextetToChar_ne_pad : ∀ n, n < 64 → sextetToChar n ≠ '=' := by
  decide

theorem base64_decode_encode :
    ∀ l : List Nat, (∀ b ∈ l, b < 256) → base64Decode (base64Encode l) = l
  | [], _ => rfl
  | [b1], h => by
    have hb : b1 < 256 := h b1 (by simp)
    simp only [base64Encode, base64Decode]
    rw [if_pos trivial, charToSextet_sextetToChar (b1 / 4) (by omega),
        charToSextet_sextetToChar (b1 % 4 * 16) (by omega)]
    have hx : b1 / 4 * 4 + b1 % 4 * 16 / 16 = b1 := by omega
    rw [hx]
  | [b1, b2], h => by
    have hb1 : b1 < 256 := h b1 (by simp)
    have hb2 : b2 < 256 := h b2 (by simp)
    simp only [base64Encode, base64Decode]
    rw [if_neg (sextetToChar_ne_pad (b2 % 16 * 4) (by omega)), if_pos trivial,
        charToSextet_sextetToChar (b1 / 4) (by omega),
        charToSextet_sextetToChar (b1 % 4 * 16 + b2 / 16) (by omega),
        charToSextet_sextetToChar (b2 % 16 * 4) (by omega)]
    have hx : b1 / 4 * 4 + (b1 % 4 * 16 + b2 / 16) / 16 = b1 := by omega
    have hy : (b1 % 4 * 16 + b2 / 16) % 16 * 16 + b2 % 16 * 4 / 4 = b2 := by omega
    rw [hx, hy]
  | b1 :: b2 :: b3 :: rest, h => by
    have hb1 : b1 < 256 := h b1 (by simp)
    have hb2 : b2 < 256 := h b2 (by simp)
    have hb3 : b3 < 256 := h b3 (by simp)
    have ih := base64_decode_encode rest (fun b hb => h b (by simp [hb]))
    simp only [base64Encode, base64Decode]
    rw [if_neg (sextetToChar_ne_pad (b2 % 16 * 4 + b3 / 64) (by omega)),
        if_neg (sextetToChar_ne_pad (b3 % 64) (by omega)),
        charToSextet_sextetToChar (b1 / 4) (by omega),
        charToSextet_sextetToChar (b1 % 4 * 16 + b2 / 16) (by omega),
        charToSextet_sextetToChar (b2 % 16 * 4 + b3 / 64) (by omega),
        charToSextet_sextetToChar (b3 % 64) (by omega), ih]
    have hx : b1 / 4 * 4 + (b1 % 4 * 16 + b2 / 16) / 16 = b1 := by omega
    have hy : (b1 % 4 * 16 + b2 / 16) % 16 * 16 + (b2 % 16 * 4 + b3 / 64) / 4 = b2 := by
      omega
    have hz : (b2 % 16 * 4 + b3 / 64) % 4 * 64 + b3 % 64 = b3 := by omega
    rw [hx, hy, hz]

theorem char_toNat_injective : Function.Injective Char.toNat := by
  intro a b hab
  have h := congrArg Char.ofNat hab
  rwa [Char.ofNat_toNat, Char.ofNat_toNat] at h

theorem isLatin1_bytes_lt {q : String} (hq : isLatin1 q = true) :
    ∀ b ∈ q.data.map Char.toNat, b < 256 := by
  intro b hb
  rcases List.mem_map.mp hb with ⟨c, hc, rfl⟩
  have := (List.all_eq_true.mp hq) c hc
  simp only [decide_eq_true_eq] at this
  omega

theorem getCacheKey_inj (q1 q2 k : String)
    (h1 : getCacheKey q1 = some k) (h2 : getCacheKey q2 = some k) : q1 = q2 := by
  simp only [getCacheKey, btoa] at h1 h2
  by_cases l1 : isLatin1 q1
  · by_cases l2 : isLatin1 q2
    · rw [if_pos l1] at h1
      rw [if_pos l2] at h2
      simp only [Option.map_some'] at h1 h2
      have hk : "github_search_" ++ String.mk (base64Encode (q1.data.map Char.toNat)) =
          "github_search_" ++ String.mk (base64Encode (q2.data.map Char.toNat)) := by
        rw [Option.some.inj h1, Option.some.inj h2]
      have hdata := congrArg String.data hk
      simp only [String.data_append] at hdata
      have henc := List.append_cancel_left hdata
      have hdec := congrArg base64Decode henc
      rw [base64_decode_encode _ (isLatin1_bytes_lt l1),
          base64_decode_encode _ (isLatin1_bytes_lt l2)] at hdec
      exact String.ext (List.map_injective_iff.mpr char_toNat_injective hdec)
    · rw [if_neg l2] at h2
      simp at h2
  · rw [if_neg l1] at h1
    simp at h1

/-- C8: for every non-empty criteria the query builder is a pure,
deterministic, total function producing
"term language:lang stars:>10" when both fields are present,
"language:lang stars:>10" when only the language is present, and
"term stars:>10" when only the term is present; in particular
build of term "x" and language "Go" is "x language:Go stars:>10". -/
theorem C8_prop (term language : String) (h : term ≠ "" ∨ language ≠ "") :
    buildSearchQuery language term =
      (if term ≠ "" ∧ language ≠ "" then
        term ++ " language:" ++ language ++ " stars:>10"
       else if language ≠ "" then
        "language:" ++ language ++ " stars:>10"
       else
        term ++ " stars:>10") ∧
    buildSearchQuery "Go" "x" = "x language:Go stars:>10" := by
  constructor
  · simp only [buildSearchQuery]
    split_ifs <;> simp [String.append_assoc]
  · decide

/-- C8 witness at term "x", language "Go". -/
theorem C8_witness :
    (("x" : String) ≠ "" ∨ ("Go" : String) ≠ "") ∧
    buildSearchQuery "Go" "x" = "x language:Go stars:>10" :=
  ⟨Or.inl (by decide), (C8_prop "x" "Go" (Or.inl (by decide))).2⟩

/-- C9 counterexample: `btoa` throws on a query containing characters
above U+00FF (modelled by `getCacheKey` returning `none`), so computing
the cache key does NOT always succeed; the surrounding async function
rejects before its `try` block and the trigger dies without effect. -/
theorem C9_counterexample :
    getCacheKey (buildSearchQuery "" "日本語") = none ∧
    searchRepositories initialState "" "日本語" = initialState := by
  constructor
  · decide
  · decide

/-- C9 (amended): computing the cache key succeeds exactly on queries
whose characters are all Latin-1 (otherwise `btoa` throws), and on
that domain distinct query strings always map to distinct cache keys
(the base64 normalization is injective). -/
theorem C9_prop (q1 q2 k1 k2 : String)
    (h1 : getCacheKey q1 = some k1) (h2 : getCacheKey q2 = some k2)
    (hne : q1 ≠ q2) : k1 ≠ k2 := by
  intro hk
  subst hk
  exact hne (getCacheKey_inj q1 q2 k1 h1 h2)

/-- C9 witness at queries "a" and "b". -/
theorem C9_witness :
    getCacheKey "a" = some "github_search_YQ==" ∧
    getCacheKey "b" = some "github_search_Yg==" ∧
    ("a" : String) ≠ "b" ∧
    ("github_search_YQ==" : String) ≠ "github_search_Yg==" :=
  ⟨by decide, by decide, by decide,
   C9_prop "a" "b" "github_search_YQ==" "github_search_Yg=="
     (by decide) (by decide) (by decide)⟩

/-- C2 counterexample: a fetch for term "abc" settles successfully
with zero items; the orchestrator transitions to Empty, but the
response IS written to the cache (line 161 runs unconditionally),
contradicting "the response is not written to the cache". -/
theorem C2_counterexample :
    (settleRequest (handleFormSubmit initialState "" "abc") 0
        (NetOutcome.success ⟨0, []⟩)).statusType = StatusType.empty ∧
    (settleRequest (handleFormSubmit initialState "" "abc") 0
        (NetOutcome.success ⟨0, []⟩)).statusMsg = noResultsMsg ∧
    (settleRequest (handleFormSubmit initialState "" "abc") 0
        (NetOutcome.success ⟨0, []⟩)).cache =
      [("github_search_YWJjIHN0YXJzOj4xMA==", ⟨⟨0, []⟩, 0⟩)] := by
  refine ⟨by decide, by decide, by decide⟩

/-- C2 (amended): for every resolution whose network fetch succeeds
with zero items, the orchestrator transitions to Empty, and the
response IS written to the cache — every successful response is
stored, empty or not. -/
theorem C2_prop (s : AppState) (id : Nat) (r : PendingReq) (d : SearchData)
    (hfind : s.pending.find? (fun q => q.id == id) = some r)
    (hab : r.aborted = false) (hempty : d.items = []) :
    (settleRequest s id (NetOutcome.success d)).statusType = StatusType.empty ∧
    (settleRequest s id (NetOutcome.success d)).statusMsg = noResultsMsg ∧
    cacheGet (settleRequest s id (NetOutcome.success d)).cache r.cacheKey =
      some ⟨d, s.now⟩ ∧
    (settleRequest s id (NetOutcome.success d)).currentResults = s.currentResults ∧
    (settleRequest s id (NetOutcome.success d)).isLoading = false := by
  simp [settleRequest, hfind, hab, hempty, handleSearchSuccess, cacheSet, cacheGet]

/-- C2 witness at a concrete pending request and empty payload. -/
theorem C2_witness :
    c2wState.pending.find? (fun q => q.id == 0) = some ⟨0, "q", "k", false⟩ ∧
    (⟨0, "q", "k", false⟩ : PendingReq).aborted = false ∧
    (⟨0, []⟩ : SearchData).items = [] ∧
    (settleRequest c2wState 0 (NetOutcome.success ⟨0, []⟩)).statusType =
      StatusType.empty :=
  ⟨by decide, rfl, rfl,
   (C2_prop c2wState 0 ⟨0, "q", "k", false⟩ ⟨0, []⟩ (by decide) rfl rfl).1⟩

/-- C6 counterexample: the query for term "abc" fails with a 503 and
the orchestrator enters Error; the user edits the field to "xyz" and
invokes retry, which re-reads the current form fields and issues the
query "xyz stars:>10" — not the identical query that failed. -/
theorem C6_counterexample :
    c6ErrState.statusType = StatusType.error ∧
    c6ErrState.statusMsg = errorStatusMsg "Error 503: Service Unavailable" ∧
    (handleFormSubmit initialState "" "abc").pending.map (fun r => r.query) =
      ["abc stars:>10"] ∧
    (retrySearch c6ErrState "" "xyz").pending.map (fun r => r.query) =
      ["xyz stars:>10"] ∧
    (retrySearch c6ErrState "" "xyz").pending.map (fun r => r.query) ≠
      ["abc stars:>10"] := by
  set_option maxRecDepth 4000 in
  refine ⟨by decide, by decide, by decide, by decide, by decide⟩

/-- C6 (amended): invoking retry re-enters resolution with the
criteria currently present in the form fields (issuing the query
built from them); only when the fields still hold the values of the
failed search is the identical query re-issued. -/
theorem C6_prop (s : AppState) (languageField termField key : String)
    (hnl : s.isLoading = false) (hpend : s.pending = [])
    (hkey : getCacheKey (buildSearchQuery languageField (jsTrim termField)) = some key)
    (hmiss : cacheGet s.cache key = none) :
    retrySearch s languageField termField =
      searchRepositories s languageField (jsTrim termField) ∧
    (retrySearch s languageField termField).pending =
      [⟨s.nextId, buildSearchQuery languageField (jsTrim termField), key, false⟩] ∧
    (retrySearch s languageField termField).fetchCount = s.fetchCount + 1 ∧
    (retrySearch s languageField termField).statusType = StatusType.loading := by
  refine ⟨rfl, ?_, ?_, ?_⟩ <;>
    simp [retrySearch, searchRepositories, abortCurrent, hnl, hkey, hmiss,
      startFetch, hpend]

/-- C6 witness at the empty state and term "abc". -/
theorem C6_witness :
    initialState.isLoading = false ∧
    initialState.pending = [] ∧
    getCacheKey (buildSearchQuery "" (jsTrim "abc")) =
      some "github_search_YWJjIHN0YXJzOj4xMA==" ∧
    cacheGet initialState.cache "github_search_YWJjIHN0YXJzOj4xMA==" = none ∧
    (retrySearch initialState "" "abc").fetchCount = initialState.fetchCount + 1 :=
  ⟨rfl, rfl, by decide, rfl,
   (C6_prop initialState "" "abc" "github_search_YWJjIHN0YXJzOj4xMA=="
     rfl rfl (by decide) rfl).2.2.1⟩

theorem search_cacheHit (s : AppState) (l t key : String) (e : CacheEntry)
    (hnl : s.isLoading = false)
    (hkey : getCacheKey (buildSearchQuery l t) = some key)
    (hhit : cacheGet s.cache key = some e)
    (hfresh : s.now - e.timestamp < CACHE_DURATION) :
    searchRepositories s l t = handleSearchSuccess s e.data := by
  have habort : abortCurrent s = s := by
    simp [abortCurrent, hnl]
  simp [searchRepositories, habort, hkey, hhit, hfresh]

theorem search_cacheStale (s : AppState) (l t key : String) (e : CacheEntry)
    (hnl : s.isLoading = false)
    (hkey : getCacheKey (buildSearchQuery l t) = some key)
    (hhit : cacheGet s.cache key = some e)
    (hstale : ¬ s.now - e.timestamp < CACHE_DURATION) :
    searchRepositories s l t = startFetch s (buildSearchQuery l t) key := by
  have habort : abortCurrent s = s := by
    simp [abortCurrent, hnl]
  simp [searchRepositories, habort, hkey, hhit, hstale]

theorem search_cacheMiss (s : AppState) (l t key : String)
    (hnl : s.isLoading = false)
    (hkey : getCacheKey (buildSearchQuery l t) = some key)
    (hmiss : cacheGet s.cache key = none) :
    searchRepositories s l t = startFetch s (buildSearchQuery l t) key := by
  have habort : abortCurrent s = s := by
    simp [abortCurrent, hnl]
  simp [searchRepositories, habort, hkey, hmiss]

/-- C7 counterexample: two independent violations of the claim at
explicit inputs.  Submitting the form with both fields empty shows
the prompt and issues no network call, but does NOT clear the
rendered results (line 58 only calls `showStatus`), contradicting
"clearing rendered results".  And the retry trigger with both fields
empty has no empty-criteria guard at all (lines 373-377 call
`searchRepositories` directly): it issues a network call with query
" stars:>10" and shows the Loading banner instead of going to Idle,
contradicting "goes to Idle ... and issues no network call". -/
theorem C7_counterexample :
    c7State.resultsRendered = [sampleItem] ∧
    (handleFormSubmit c7State "" "").statusType = StatusType.empty ∧
    (handleFormSubmit c7State "" "").statusMsg = promptSubmitMsg ∧
    (handleFormSubmit c7State "" "").resultsRendered = [sampleItem] ∧
    (handleFormSubmit c7State "" "").fetchCount = c7State.fetchCount ∧
    (retrySearch c7State "" "").fetchCount = c7State.fetchCount + 1 ∧
    (retrySearch c7State "" "").statusType = StatusType.loading ∧
    (retrySearch c7State "" "").pending.map (fun r => r.query) =
      [" stars:>10"] := by
  refine ⟨by decide, by decide, by decide, by decide, by decide, by decide,
    by decide, by decide⟩

/-- C7 (amended): among the triggers, only form-submit, language-change
and text-input guard empty criteria: with both term and language empty
they show the empty-state prompt and issue no network call, where
language-change and text-input also clear the rendered results but
form submit leaves them in place.  The retry trigger has no
empty-criteria guard: with both fields empty (from a quiescent state
with nothing cached) it does NOT go to Idle — it issues a network
call with query " stars:>10" and shows the Loading banner. -/
theorem C7_prop (s : AppState) (languageField termField : String)
    (hl : languageField = "") (ht : (jsTrim termField) = "") :
    (handleFormSubmit s languageField termField).statusType = StatusType.empty ∧
    (handleFormSubmit s languageField termField).statusMsg = promptSubmitMsg ∧
    (handleFormSubmit s languageField termField).fetchCount = s.fetchCount ∧
    (handleFormSubmit s languageField termField).pending = s.pending ∧
    (handleFormSubmit s languageField termField).resultsRendered = s.resultsRendered ∧
    (handleLanguageChange s languageField termField).statusType = StatusType.empty ∧
    (handleLanguageChange s languageField termField).statusMsg = promptMsg ∧
    (handleLanguageChange s languageField termField).resultsRendered = [] ∧
    (handleLanguageChange s languageField termField).fetchCount = s.fetchCount ∧
    (handleLanguageChange s languageField termField).pending = s.pending ∧
    (handleSearchTermInput s languageField termField).statusType = StatusType.empty ∧
    (handleSearchTermInput s languageField termField).statusMsg = promptMsg ∧
    (handleSearchTermInput s languageField termField).resultsRendered = [] ∧
    (handleSearchTermInput s languageField termField).fetchCount = s.fetchCount ∧
    (handleSearchTermInput s languageField termField).debouncePending = none ∧
    (retrySearch ({ s with isLoading := false, pending := [], cache := [] } :
        AppState) languageField termField).fetchCount = s.fetchCount + 1 ∧
    (retrySearch ({ s with isLoading := false, pending := [], cache := [] } :
        AppState) languageField termField).statusType = StatusType.loading ∧
    (retrySearch ({ s with isLoading := false, pending := [], cache := [] } :
        AppState) languageField termField).pending.map (fun r => r.query) =
      [" stars:>10"] := by
  subst hl
  have hretry : retrySearch ({ s with isLoading := false, pending := [], cache := [] } :
      AppState) "" termField =
      startFetch ({ s with isLoading := false, pending := [], cache := [] } :
        AppState) (buildSearchQuery "" "") "github_search_IHN0YXJzOj4xMA==" := by
    have hr : retrySearch ({ s with isLoading := false, pending := [], cache := [] } :
        AppState) "" termField =
        searchRepositories ({ s with isLoading := false, pending := [], cache := [] } :
          AppState) "" "" := by
      unfold retrySearch
      rw [ht]
    rw [hr]
    exact search_cacheMiss _ "" "" "github_search_IHN0YXJzOj4xMA==" rfl
      (by decide) rfl
  refine ⟨?_, ?_, ?_, ?_, ?_, ?_, ?_, ?_, ?_, ?_, ?_, ?_, ?_, ?_, ?_, ?_, ?_, ?_⟩
  all_goals
    simp [handleFormSubmit, handleLanguageChange, handleSearchTermInput, ht,
      hretry, startFetch]
  all_goals decide

/-- C7 witness at the empty state with both fields empty. -/
theorem C7_witness :
    ("" : String) = "" ∧ jsTrim "" = "" ∧
    (handleFormSubmit initialState "" "").statusType = StatusType.empty ∧
    (retrySearch ({ initialState with isLoading := false, pending := [], cache := [] } :
        AppState) "" "").fetchCount = initialState.fetchCount + 1 :=
  ⟨rfl, rfl, (C7_prop initialState "" "" rfl rfl).1,
   (C7_prop initialState "" "" rfl rfl).2.2.2.2.2.2.2.2.2.2.2.2.2.2.2.1⟩

theorem markAborted_all (ps : List PendingReq) (id : Nat) :
    (markAborted ps id).all (fun r => r.id != id || r.aborted) = true := by
  rw [List.all_eq_true]
  intro x hx
  rcases List.mem_map.mp hx with ⟨r, hr, rfl⟩
  by_cases h : r.id = id
  · simp [markAborted, h]
  · simp [markAborted, h]

theorem handleSearchSuccess_pending (s : AppState) (d : SearchData) :
    (handleSearchSuccess s d).pending = s.pending := by
  unfold handleSearchSuccess
  split <;> rfl

theorem handleSearchSuccess_now (s : AppState) (d : SearchData) :
    (handleSearchSuccess s d).now = s.now := by
  unfold handleSearchSuccess
  split <;> rfl

theorem handleSearchSuccess_cache (s : AppState) (d : SearchData) :
    (handleSearchSuccess s d).cache = s.cache := by
  unfold handleSearchSuccess
  split <;> rfl

theorem handleSearchSuccess_fetchCount (s : AppState) (d : SearchData) :
    (handleSearchSuccess s d).fetchCount = s.fetchCount := by
  unfold handleSearchSuccess
  split <;> rfl

theorem handleSearchSuccess_isLoading (s : AppState) (d : SearchData) :
    (handleSearchSuccess s d).isLoading = s.isLoading := by
  unfold handleSearchSuccess
  split <;> rfl

theorem abortCurrent_loading_pending (s : AppState) (id : Nat)
    (hload : s.isLoading = true) (hctrl : s.abortController = some id) :
    abortCurrent s = { s with pending := markAborted s.pending id } := by
  simp [abortCurrent, hload, hctrl]

/-- C1 counterexample: events submit "aaa"; submit "bbb" (aborts the
first); settle of the aborted first request (its `finally` resets
`isLoading`); submit "ccc".  At that point resolution A (= "bbb") is
still unsettled and resolution B (= "ccc") has been triggered, yet
A's late success still transitions the state to Success and writes
the cache — contradicting the claim that A's eventual result never
causes a state transition or cache write after B is triggered. -/
theorem C1_counterexample :
    c1State.pending.any (fun r => r.id == 1 && !r.aborted) = true ∧
    c1State.statusType = StatusType.loading ∧
    (settleRequest c1State 1 (NetOutcome.success ⟨1, [sampleItem]⟩)).statusType =
      StatusType.success ∧
    (settleRequest c1State 1 (NetOutcome.success ⟨1, [sampleItem]⟩)).currentResults =
      [sampleItem] ∧
    (settleRequest c1State 1 (NetOutcome.success ⟨1, [sampleItem]⟩)).cache ≠
      c1State.cache := by
  set_option maxRecDepth 8000 in
  refine ⟨by decide, by decide, by decide, by decide, by decide⟩

/-- C1 (amended): if resolution B is triggered while the loading flag
is set and the abort controller still tracks A's request, then B's
trigger marks every pending request of A's id aborted, and the
settling of an aborted request causes no status change, no cache
write, and no change to the current or rendered results (only the
`finally` cleanup of the loading flag runs).  The unconditional claim
fails: after an aborted request's `finally` has cleared the loading
flag, a newer trigger no longer cancels a still-outstanding request,
whose late result is then applied (see the counterexample). -/
theorem C1_prop (s u : AppState) (language searchTerm : String) (id : Nat)
    (o : NetOutcome)
    (hload : s.isLoading = true) (hctrl : s.abortController = some id)
    (hfresh : id < s.nextId)
    (hu : u.pending.all (fun r => r.id != id || r.aborted) = true) :
    (searchRepositories s language searchTerm).pending.all
        (fun r => r.id != id || r.aborted) = true ∧
    (settleRequest u id o).statusType = u.statusType ∧
    (settleRequest u id o).statusMsg = u.statusMsg ∧
    (settleRequest u id o).cache = u.cache ∧
    (settleRequest u id o).currentResults = u.currentResults ∧
    (settleRequest u id o).resultsRendered = u.resultsRendered := by
  have hne : s.nextId ≠ id := by omega
  constructor
  · simp only [searchRepositories]
    rw [abortCurrent_loading_pending s id hload hctrl]
    split
    · exact markAborted_all s.pending id
    · split
      · split
        · simp [handleSearchSuccess_pending, markAborted_all s.pending id]
        · simp [startFetch, markAborted_all s.pending id, hne]
      · simp [startFetch, markAborted_all s.pending id, hne]
  · cases hfind : u.pending.find? (fun r => r.id == id) with
    | none => simp [settleRequest, hfind]
    | some r =>
      have hmem : r ∈ u.pending := List.mem_of_find?_eq_some hfind
      have hall := List.all_eq_true.mp hu r hmem
      have hrid : r.id = id := by simpa using List.find?_some hfind
      have hab : r.aborted = true := by
        simp [hrid] at hall
        exact hall
      simp [settleRequest, hfind, hab]

/-- C1 witness at a freshly started fetch and an aborted request. -/
theorem C1_witness :
    (startFetch initialState "q" "k").isLoading = true ∧
    (startFetch initialState "q" "k").abortController = some 0 ∧
    0 < (startFetch initialState "q" "k").nextId ∧
    c1uState.pending.all (fun r => r.id != 0 || r.aborted) = true ∧
    (settleRequest c1uState 0 (NetOutcome.netError "boom")).statusMsg =
      c1uState.statusMsg :=
  ⟨rfl, rfl, by decide, by decide,
   (C1_prop (startFetch initialState "q" "k") c1uState "" "term" 0
     (NetOutcome.netError "boom") rfl rfl (by decide) (by decide)).2.2.1⟩

/-- C3 counterexample: after the event order of `c1State` (trigger,
superseding trigger, settle of the aborted request, third trigger)
the state holds TWO live in-flight requests — the third trigger
started a fetch without cancelling the outstanding one, because the
aborted request's `finally` had already cleared `isLoading`. -/
theorem C3_counterexample :
    (c3State.pending.filter (fun r => !r.aborted)).length = 2 ∧
    c3State.pending.map (fun r => r.id) = [1, 2] ∧
    c3State.pending.map (fun r => r.aborted) = [false, false] := by
  set_option maxRecDepth 8000 in
  refine ⟨by decide, by decide, by decide⟩

/-- C3 (amended): a trigger that starts a new fetch from a state in
which the loading flag is set and all live pending requests are the
one tracked by the abort controller cancels that request before (in
the same synchronous segment as) starting the new one, leaving at
most one live in-flight request.  The unconditional invariant fails:
once an aborted request's `finally` clears the loading flag while
another request is still in flight, a further trigger starts a second
live request (see the counterexample). -/
theorem C3_prop (s : AppState) (language searchTerm : String) (id : Nat)
    (hload : s.isLoading = true) (hctrl : s.abortController = some id)
    (hlive : s.pending.all (fun r => r.aborted || r.id == id) = true) :
    ((searchRepositories s language searchTerm).pending.filter
        (fun r => !r.aborted)).length ≤ 1 := by
  have hall : ∀ x ∈ markAborted s.pending id, x.aborted = true := by
    intro x hx
    rcases List.mem_map.mp hx with ⟨r, hr, rfl⟩
    have hl := List.all_eq_true.mp hlive r hr
    by_cases h : r.id = id
    · simp [h]
    · simp [h] at hl
      simp [h, hl]
  have hfilter : (markAborted s.pending id).filter (fun r => !r.aborted) = [] := by
    rw [List.filter_eq_nil_iff]
    intro a ha
    simp [hall a ha]
  simp only [searchRepositories]
  rw [abortCurrent_loading_pending s id hload hctrl]
  split
  · simp [hfilter]
  · split
    · split
      · simp [handleSearchSuccess_pending, hfilter]
      · simp [startFetch, List.filter_append, hfilter]
    · simp [startFetch, List.filter_append, hfilter]

/-- C3 witness at a freshly started fetch superseded by a trigger. -/
theorem C3_witness :
    (startFetch initialState "q" "k").isLoading = true ∧
    (startFetch initialState "q" "k").abortController = some 0 ∧
    (startFetch initialState "q" "k").pending.all
      (fun r => r.aborted || r.id == 0) = true ∧
    ((searchRepositories (startFetch initialState "q" "k") "" "xyz").pending.filter
      (fun r => !r.aborted)).length ≤ 1 :=
  ⟨rfl, rfl, by decide,
   C3_prop (startFetch initialState "q" "k") "" "xyz" 0 rfl rfl (by decide)⟩

/-- C4: from a quiescent state, with the cache missing the query's
key: the first resolution issues a network call; once it settles
successfully, a second resolution with the same criteria within the
TTL issues no network call and is served from the cache with the
identical payload; a resolution after the TTL has elapsed issues a
new network call regardless of the stored entry. -/
theorem C4_prop (s : AppState) (l t key : String) (d : SearchData) (dt dt2 : Nat)
    (hnl : s.isLoading = false) (hpend : s.pending = [])
    (hkey : getCacheKey (buildSearchQuery l t) = some key)
    (hmiss : cacheGet s.cache key = none)
    (hdt : dt < CACHE_DURATION) (hdt2 : CACHE_DURATION ≤ dt2) :
    (searchRepositories s l t).fetchCount = s.fetchCount + 1 ∧
    (let s2 := settleRequest (searchRepositories s l t) s.nextId (NetOutcome.success d)
     let s3 : AppState := { s2 with now := s2.now + dt }
     let s3e : AppState := { s2 with now := s2.now + dt2 }
     s2.pending = [] ∧
     searchRepositories s3 l t = handleSearchSuccess s3 d ∧
     (searchRepositories s3 l t).fetchCount = s3.fetchCount ∧
     (searchRepositories s3 l t).pending = s3.pending ∧
     (searchRepositories s3e l t).fetchCount = s3e.fetchCount + 1) := by
  have h1 : searchRepositories s l t = startFetch s (buildSearchQuery l t) key :=
    search_cacheMiss s l t key hnl hkey hmiss
  have hfind : (startFetch s (buildSearchQuery l t) key).pending.find?
      (fun r => r.id == s.nextId) =
      some ⟨s.nextId, buildSearchQuery l t, key, false⟩ := by
    simp [startFetch, hpend]
  have h2now : (settleRequest (searchRepositories s l t) s.nextId
      (NetOutcome.success d)).now = s.now := by
    rw [h1]
    simp [settleRequest, hfind, handleSearchSuccess_now, startFetch, hpend]
  have h2load : (settleRequest (searchRepositories s l t) s.nextId
      (NetOutcome.success d)).isLoading = false := by
    rw [h1]
    simp [settleRequest, hfind, startFetch, hpend]
  have h2pend : (settleRequest (searchRepositories s l t) s.nextId
      (NetOutcome.success d)).pending = [] := by
    rw [h1]
    simp [settleRequest, hfind, handleSearchSuccess_pending, startFetch, hpend]
  have h2cache : (settleRequest (searchRepositories s l t) s.nextId
      (NetOutcome.success d)).cache = (key, ⟨d, s.now⟩) :: s.cache := by
    rw [h1]
    simp [settleRequest, hfind, handleSearchSuccess_cache, startFetch, hpend, cacheSet]
  refine ⟨by rw [h1]; rfl, ?_, ?_, ?_, ?_, ?_⟩
  · exact h2pend
  · have hhit : cacheGet ({ settleRequest (searchRepositories s l t) s.nextId
        (NetOutcome.success d) with
        now := (settleRequest (searchRepositories s l t) s.nextId
          (NetOutcome.success d)).now + dt } : AppState).cache key =
        some ⟨d, s.now⟩ := by
      simp [cacheGet, h2cache]
    have hfr : ({ settleRequest (searchRepositories s l t) s.nextId
        (NetOutcome.success d) with
        now := (settleRequest (searchRepositories s l t) s.nextId
          (NetOutcome.success d)).now + dt } : AppState).now -
        (⟨d, s.now⟩ : CacheEntry).timestamp < CACHE_DURATION := by
      simp only [h2now]
      omega
    exact search_cacheHit _ l t key ⟨d, s.now⟩ (by simp [h2load]) hkey hhit hfr
  · have heq := search_cacheHit ({ settleRequest (searchRepositories s l t) s.nextId
        (NetOutcome.success d) with
        now := (settleRequest (searchRepositories s l t) s.nextId
          (NetOutcome.success d)).now + dt } : AppState) l t key ⟨d, s.now⟩
        (by simp [h2load]) hkey (by simp [cacheGet, h2cache])
        (by simp only [h2now]; omega)
    rw [heq, handleSearchSuccess_fetchCount]
  · have heq := search_cacheHit ({ settleRequest (searchRepositories s l t) s.nextId
        (NetOutcome.success d) with
        now := (settleRequest (searchRepositories s l t) s.nextId
          (NetOutcome.success d)).now + dt } : AppState) l t key ⟨d, s.now⟩
        (by simp [h2load]) hkey (by simp [cacheGet, h2cache])
        (by simp only [h2now]; omega)
    rw [heq, handleSearchSuccess_pending]
  · have heq := search_cacheStale ({ settleRequest (searchRepositories s l t) s.nextId
        (NetOutcome.success d) with
        now := (settleRequest (searchRepositories s l t) s.nextId
          (NetOutcome.success d)).now + dt2 } : AppState) l t key ⟨d, s.now⟩
        (by simp [h2load]) hkey (by simp [cacheGet, h2cache])
        (by simp only [h2now]; omega)
    rw [heq]
    rfl

/-- C4 witness at the empty state and term "ab". -/
theorem C4_witness :
    initialState.isLoading = false ∧
    initialState.pending = [] ∧
    getCacheKey (buildSearchQuery "" "ab") = some "github_search_YWIgc3RhcnM6PjEw" ∧
    cacheGet initialState.cache "github_search_YWIgc3RhcnM6PjEw" = none ∧
    0 < CACHE_DURATION ∧ CACHE_DURATION ≤ CACHE_DURATION ∧
    (searchRepositories initialState "" "ab").fetchCount =
      initialState.fetchCount + 1 :=
  ⟨rfl, rfl, by decide, rfl, by decide, Nat.le_refl _,
   (C4_prop initialState "" "ab" "github_search_YWIgc3RhcnM6PjEw"
     ⟨2, [sampleItem, sampleItem2]⟩ 0 CACHE_DURATION rfl rfl (by decide) rfl
     (by decide) (Nat.le_refl _)).1⟩

/-- C5 counterexample: in a Success state, typing the two-character
term "ab" with no language selected schedules nothing AND leaves the
state entirely unchanged — the orchestrator is NOT reset to Idle,
contradicting "in every other case ... the orchestrator is reset to
Idle". -/
theorem C5_counterexample :
    c5State.statusType = StatusType.success ∧
    c5State.resultsRendered = [sampleItem, sampleItem2] ∧
    handleSearchTermInput c5State "" "ab" = { c5State with debouncePending := none } ∧
    (handleSearchTermInput c5State "" "ab").debouncePending = none ∧
    (handleSearchTermInput c5State "" "ab").statusType = StatusType.success ∧
    (handleSearchTermInput c5State "" "ab").resultsRendered =
      [sampleItem, sampleItem2] := by
  refine ⟨by decide, by decide, by decide, by decide, by decide, by decide⟩

/-- C5 (amended): a debounced search is scheduled iff the trimmed term
length is at least 3 or a language is selected; the reset to Idle
(prompt shown, results cleared) happens only when both the trimmed
term and the language are empty; for a non-empty term shorter than 3
characters with no language, nothing is scheduled and nothing is
reset; no text-input trigger ever issues a network call directly. -/
theorem C5_prop (s : AppState) (languageField termValue : String) :
    ((handleSearchTermInput s languageField termValue).debouncePending.isSome = true ↔
      (3 ≤ (jsTrim termValue).length ∨ languageField ≠ "")) ∧
    (handleSearchTermInput s languageField termValue).statusType =
      (if jsTrim termValue = "" ∧ languageField = "" then StatusType.empty
       else s.statusType) ∧
    (handleSearchTermInput s languageField termValue).resultsRendered =
      (if jsTrim termValue = "" ∧ languageField = "" then []
       else s.resultsRendered) ∧
    (handleSearchTermInput s languageField termValue).fetchCount = s.fetchCount ∧
    (handleSearchTermInput s languageField termValue).pending = s.pending := by
  unfold handleSearchTermInput
  by_cases h1 : 3 ≤ (jsTrim termValue).length ∨ languageField ≠ ""
  · have hne : ¬(jsTrim termValue = "" ∧ languageField = "") := by
      rintro ⟨he, hl⟩
      rcases h1 with h | h
      · rw [he] at h
        simp at h
      · exact h hl
    simp [h1, hne]
  · have hlang : languageField = "" := by
      by_contra hc
      exact h1 (Or.inr hc)
    by_cases h2 : jsTrim termValue = ""
    · simp [h1, h2, hlang]
    · simp [h1, h2]

theorem resultFrame_trans_eq {s x s' : AppState}
    (hx : x.currentResults = s.currentResults) (h : ResultFrame x s') :
    ResultFrame s s' := by
  rcases h with h | h
  · left
    rw [h, hx]
  · right
    exact h

theorem abortCurrent_currentResults (s : AppState) :
    (abortCurrent s).currentResults = s.currentResults := by
  unfold abortCurrent
  split
  · split <;> rfl
  · rfl

theorem handleSearchSuccess_resultFrame (x : AppState) (d : SearchData) :
    ResultFrame x (handleSearchSuccess x d) := by
  unfold ResultFrame handleSearchSuccess
  split
  · rename_i h
    right
    exact ⟨List.length_pos.mp h, rfl, rfl⟩
  · left
    rfl

theorem search_resultFrame (s : AppState) (l t : String) :
    ResultFrame s (searchRepositories s l t) := by
  simp only [searchRepositories]
  split
  · exact Or.inl (abortCurrent_currentResults s)
  · split
    · split
      · exact resultFrame_trans_eq (abortCurrent_currentResults s)
          (handleSearchSuccess_resultFrame _ _)
      · exact Or.inl (abortCurrent_currentResults s)
    · exact Or.inl (abortCurrent_currentResults s)

theorem settle_resultFrame (s : AppState) (id : Nat) (o : NetOutcome) :
    ResultFrame s (settleRequest s id o) := by
  simp only [settleRequest]
  split
  · exact Or.inl rfl
  · split
    · exact Or.inl rfl
    · split
      · exact resultFrame_trans_eq rfl (handleSearchSuccess_resultFrame _ _)
      · exact Or.inl rfl
      · exact Or.inl rfl

/-- C10: the retained current result set is only ever replaced by the
non-empty item list of a successful response (every step either
preserves it, or ends with Success shown and that same non-empty list
both retained and rendered — in particular Empty and Error outcomes
never clear it); the random pick renders exactly one item drawn from
the retained set, changes no other state, and is a silent no-op when
the retained set is empty. -/
theorem C10_prop (s : AppState) (e : Event) (i : Nat)
    (hi : i < s.currentResults.length) :
    ResultFrame s (step s e) ∧
    (showRandomRepository s i).resultsRendered =
      [s.currentResults.getD i defaultItem] ∧
    s.currentResults.getD i defaultItem ∈ s.currentResults ∧
    (showRandomRepository s i).currentResults = s.currentResults ∧
    (showRandomRepository s i).statusType = s.statusType ∧
    (showRandomRepository s i).cache = s.cache ∧
    (showRandomRepository s i).fetchCount = s.fetchCount ∧
    showRandomRepository { s with currentResults := [] } i =
      { s with currentResults := [] } := by
  have hpos : 0 < s.currentResults.length := Nat.lt_of_le_of_lt (Nat.zero_le i) hi
  refine ⟨?_, ?_, ?_, ?_, ?_, ?_, ?_, ?_⟩
  · cases e with
    | submit l t =>
      simp only [step, handleFormSubmit]
      split
      · exact Or.inl rfl
      · exact search_resultFrame s l (jsTrim t)
    | languageChange l t =>
      simp only [step, handleLanguageChange]
      split
      · exact search_resultFrame s l (jsTrim t)
      · split
        · exact Or.inl rfl
        · exact Or.inl rfl
    | textInput l t =>
      simp only [step, handleSearchTermInput]
      split
      · exact Or.inl rfl
      · split
        · exact Or.inl rfl
        · exact Or.inl rfl
    | debounceFire =>
      simp only [step]
      split
      · exact resultFrame_trans_eq rfl (search_resultFrame _ _ _)
      · exact Or.inl rfl
    | retry l t =>
      simp only [step, retrySearch]
      exact search_resultFrame s l (jsTrim t)
    | randomPick j =>
      simp only [step, showRandomRepository]
      split
      · exact Or.inl rfl
      · exact Or.inl rfl
    | settle id o =>
      simp only [step]
      exact settle_resultFrame s id o
    | tick dt =>
      exact Or.inl rfl
    | teardown =>
      simp only [step, destroy]
      split
      · exact Or.inl rfl
      · exact Or.inl rfl
  · simp [showRandomRepository, hpos]
  · have hg : s.currentResults.getD i defaultItem = s.currentResults[i] :=
      List.getD_eq_getElem s.currentResults defaultItem hi
    rw [hg]
    exact List.getElem_mem hi
  · simp [showRandomRepository, hpos]
  · simp [showRandomRepository, hpos]
  · simp [showRandomRepository, hpos]
  · simp [showRandomRepository, hpos]
  · simp [showRandomRepository]

/-- C10 witness at a Success state with two retained items. -/
theorem C10_witness :
    1 < c5State.currentResults.length ∧
    (showRandomRepository c5State 1).resultsRendered =
      [c5State.currentResults.getD 1 defaultItem] :=
  ⟨by decide,
   (C10_prop c5State (Event.settle 0 (NetOutcome.netError "x")) 1 (by decide)).2.1⟩

end GhSearch
